import Mathlib

/-!
Shallow embedding of the quaily-journalist scoring / ranking-store /
digest-selection core, translated from the Go sources:

  * `internal/model/news.go`        — `NewsItem`, `WithScore`
  * `worker/v2ex_collector.go`      — `popularityScore`, `periodKey`
  * `worker/hn_collector.go`        — `hnPopularityScore` (src/unnamed/part_000)
  * `internal/storage/redis_store.go` — `RedisStore` operations
  * `worker/newsletter_builder.go`  — `NewsletterBuilder.runOnce`,
                                      `renderMarkdown`, node filters

Modelling conventions:
  * Go `float64` values (scores, fractional hours) are modelled as real
    numbers; `math.Pow` on a positive base is `Real.rpow`; `math.IsNaN`
    never holds over `ℝ`, so the NaN clamp collapses to the `< 0` clamp.
  * Where only ordering and equality of scores matter (the store and the
    builder), the score type is a parameter `α` with a linear order, so
    that concrete instances can be evaluated (`ℤ`, `ℚ`); the scoring
    functions themselves are stated over `ℝ`.
  * Timestamps are a parameter `τ` in the store/builder development and
    `ℝ` (hours) in the scoring development.
  * `time.Time` values that only feed `periodKey` / `Format` are modelled
    by their UTC civil date (and minute-of-day where formatted).
-/

/-- `model.NewsItem` (internal/model/news.go), with the creation
timestamp abstracted to a type `τ`. -/
structure NewsItem (τ : Type) where
  id : String
  title : String
  url : String
  nodeName : String
  replies : Int
  points : Int
  createdAt : τ
  content : String
  deriving Repr, DecidableEq

/-- `model.WithScore`: a news item decorated with a ranking score. -/
structure WithScore (τ α : Type) where
  item : NewsItem τ
  score : α
  deriving Repr, DecidableEq

/-! ## Scoring (worker/v2ex_collector.go, worker hn collector)

`now` and `NewsItem.createdAt` are measured in hours, so that Go's
`time.Since(it.CreatedAt).Hours()` is `now - it.createdAt`. -/

/-- `popularityScore` (worker/v2ex_collector.go lines 68–86): V2EX uses
the reply count as the engagement metric.  Over `ℝ` the `math.IsNaN`
test of the Go code is vacuous, leaving the `score < 0` clamp. -/
noncomputable def popularityScore (now : ℝ) (it : NewsItem ℝ) : ℝ :=
  if it.replies ≤ 0 then 0
  else
    let count := it.replies
    let diff0 := now - it.createdAt
    let diff := if diff0 < 0 then 0 else diff0
    let score := ((count - 1 : ℤ) : ℝ) / (diff + 2) ^ (1.8 : ℝ)
    if score < 0 then 0 else score

/-- `hnPopularityScore` (worker hn collector, src/unnamed/part_000 lines
102–117): Hacker News uses the point count as the engagement metric. -/
noncomputable def hnPopularityScore (now : ℝ) (it : NewsItem ℝ) : ℝ :=
  if it.points ≤ 0 then 0
  else
    let count := it.points
    let diff0 := now - it.createdAt
    let diff := if diff0 < 0 then 0 else diff0
    let score := ((count - 1 : ℤ) : ℝ) / (diff + 2) ^ (1.8 : ℝ)
    if score < 0 then 0 else score

/-! ## Calendar arithmetic and `periodKey`

`periodKey` (worker/v2ex_collector.go lines 88–97) consumes the UTC
civil date of a `time.Time`.  The week computation mirrors Go's
`Time.ISOWeek` (move to the Thursday of the current Monday-based week,
then count weeks of that Thursday's year); day arithmetic uses the
standard days-from-civil bijection. -/

/-- A UTC civil date (proleptic Gregorian), as exposed by Go's
`Time.Date` in UTC. -/
structure Date where
  year : Int
  month : Int
  day : Int
  deriving Repr, DecidableEq

/-- A UTC civil datetime down to the minute (all the precision the
builder's `Format` calls consume). -/
structure DateTime where
  year : Int
  month : Int
  day : Int
  hour : Int
  minute : Int
  deriving Repr, DecidableEq

def DateTime.date (t : DateTime) : Date :=
  { year := t.year, month := t.month, day := t.day }

/-- Days since 1970-01-01 of a civil date (days-from-civil). -/
def daysFromCivil (dt : Date) : Int :=
  let y := if dt.month ≤ 2 then dt.year - 1 else dt.year
  let era := Int.fdiv y 400
  let yoe := y - era * 400
  let mp := Int.emod (dt.month + 9) 12
  let doy := Int.ediv (153 * mp + 2) 5 + dt.day - 1
  let doe := yoe * 365 + Int.ediv yoe 4 - Int.ediv yoe 100 + doy
  era * 146097 + doe - 719468

/-- Inverse of `daysFromCivil` (civil-from-days). -/
def civilFromDays (z0 : Int) : Date :=
  let z := z0 + 719468
  let era := Int.fdiv z 146097
  let doe := z - era * 146097
  let yoe :=
    Int.ediv (doe - Int.ediv doe 1460 + Int.ediv doe 36524 - Int.ediv doe 146096) 365
  let y := yoe + era * 400
  let doy := doe - (365 * yoe + Int.ediv yoe 4 - Int.ediv yoe 100)
  let mp := Int.ediv (5 * doy + 2) 153
  let d := doy - Int.ediv (153 * mp + 2) 5 + 1
  let m := mp + (if mp < 10 then 3 else -9)
  { year := y + (if m ≤ 2 then 1 else 0), month := m, day := d }

/-- Go `Time.Weekday` in UTC: Sunday = 0 … Saturday = 6
(1970-01-01 was a Thursday, weekday 4). -/
def weekdayOf (dt : Date) : Int :=
  Int.emod (daysFromCivil dt + 4) 7

def addDays (dt : Date) (k : Int) : Date :=
  civilFromDays (daysFromCivil dt + k)

/-- Go `Time.YearDay`: 1-based ordinal day within the year. -/
def yearDay (dt : Date) : Int :=
  daysFromCivil dt - daysFromCivil { year := dt.year, month := 1, day := 1 } + 1

/-- Go `Time.ISOWeek`: the ISO-8601 (year, week) pair, computed via the
Thursday of the Monday-based week containing `dt`. -/
def isoWeekOf (dt : Date) : Int × Int :=
  let d0 := 4 - weekdayOf dt
  let d := if d0 = 4 then -3 else d0
  let t := addDays dt d
  (t.year, Int.ediv (yearDay t - 1) 7 + 1)

/-- Left-pad the decimal representation of a non-negative integer with
zeros to the given width (Go `%0Nd` / `Format` padding). -/
def padInt (width : Nat) (n : Int) : String :=
  let s := toString n.toNat
  if s.length < width then String.mk (List.replicate (width - s.length) '0') ++ s
  else s

/-- Go layout `"2006-01-02"` in UTC. -/
def formatDaily (dt : Date) : String :=
  padInt 4 dt.year ++ "-" ++ padInt 2 dt.month ++ "-" ++ padInt 2 dt.day

/-- Go `fmt.Sprintf("%04d-W%02d", year, week)` on `ISOWeek`. -/
def formatISOWeek (dt : Date) : String :=
  let yw := isoWeekOf dt
  padInt 4 yw.1 ++ "-W" ++ padInt 2 yw.2

/-- Go layout `"20060102"` in UTC. -/
def formatYYYYMMDD (dt : Date) : String :=
  padInt 4 dt.year ++ padInt 2 dt.month ++ padInt 2 dt.day

/-- Go layout `"2006-01-02 15:04"` in UTC. -/
def formatDatetime (t : DateTime) : String :=
  formatDaily t.date ++ " " ++ padInt 2 t.hour ++ ":" ++ padInt 2 t.minute

/-- `periodKey` (worker/v2ex_collector.go lines 88–97).  The `t.UTC()`
call of the Go code is implicit: `Date` values here are already the UTC
civil date. -/
def periodKey (freq : String) (t : Date) : String :=
  match freq with
  | "weekly" => formatISOWeek t
  | _ => formatDaily t

/-! ## Ranked item store (internal/storage/redis_store.go)

The Redis keyspace is modelled structurally: the four key families
(`news:item:…`, `news:source:…:period:…`, `news:published:…`,
`news:skip:…`) become four fields keyed by the pair the key string
encodes.  A sorted set is an association list of `(member, score)`
pairs kept in Redis's reverse order: descending score, ties broken by
descending member, the order `ZREVRANGE` reports.  Expiry is modelled
by absence: an expired payload is one that is simply not in `items`. -/

/-- Association-list update: replace the value of an existing key in
place, otherwise append. -/
def setAssoc {κ β : Type} [DecidableEq κ] (k : κ) (v : β) : List (κ × β) → List (κ × β)
  | [] => [(k, v)]
  | (j, w) :: rest => if j = k then (k, v) :: rest else (j, w) :: setAssoc k v rest

/-- Association-list lookup. -/
def getAssoc {κ β : Type} [DecidableEq κ] (k : κ) : List (κ × β) → Option β
  | [] => none
  | (j, w) :: rest => if j = k then some w else getAssoc k rest

section ZSet

variable {α : Type} [LinearOrder α]

/-- Insert a member into a descending-ordered sorted set, placing it
after every entry that precedes it in Redis's reverse order (higher
score first; on equal scores, lexicographically larger member first). -/
def zinsert (id : String) (s : α) : List (String × α) → List (String × α)
  | [] => [(id, s)]
  | (j, t) :: rest =>
    if s < t ∨ (s = t ∧ id < j) then (j, t) :: zinsert id s rest
    else (id, s) :: (j, t) :: rest

/-- Redis `ZADD`: upsert a member's score (set semantics — the member
is re-ranked at its canonical position). -/
def zadd (id : String) (s : α) (z : List (String × α)) : List (String × α) :=
  zinsert id s (z.filter (fun p => p.1 ≠ id))

/-- The score stored for a member, if present. -/
def zscore (id : String) (z : List (String × α)) : Option α :=
  (z.find? (fun p => p.1 = id)).map (fun p => p.2)

/-- Redis `ZREVRANGE key start stop` index arithmetic on a list already
held in reverse order: negative indices count from the end, the range
is inclusive, out-of-range indices are clamped, an inverted range is
empty. -/
def normStart (card start : Int) : Int :=
  if start < 0 then max (card + start) 0 else start

def normStop (card stop : Int) : Int :=
  if stop < 0 then card + stop else stop

def zrevrange {β : Type} (l : List β) (start stop : Int) : List β :=
  if normStart l.length start > normStop l.length stop
      ∨ (l.length : Int) ≤ normStart l.length start then []
  else (l.take ((min (normStop l.length stop) ((l.length : Int) - 1)).toNat + 1)).drop
    (normStart l.length start).toNat

end ZSet

/-- `storage.RedisStore` observable state.  `nodeTitles` backs
`GetNodeTitle`, the keyed read of cached node display titles the
builder consults (its writer, `SetNodeTitle`, runs at init). -/
structure RedisStore (τ α : Type) where
  items : List ((String × String) × NewsItem τ)
  zsets : List ((String × String) × List (String × α))
  published : List (String × String)
  skipped : List (String × String)
  nodeTitles : List ((String × String) × String)
  deriving Repr, DecidableEq

namespace RedisStore

variable {τ α : Type} [LinearOrder α]

def getItem (st : RedisStore τ α) (source id : String) : Option (NewsItem τ) :=
  getAssoc (source, id) st.items

def getZSet (st : RedisStore τ α) (source period : String) : List (String × α) :=
  (getAssoc (source, period) st.zsets).getD []

def getNodeTitle (st : RedisStore τ α) (source node : String) : Option String :=
  getAssoc (source, node) st.nodeTitles

/-- `RedisStore.AddNews` (redis_store.go lines 39–51): store the item
payload under `(source, id)` (7-day TTL, modelled by later absence),
then `ZADD` `(id → score)` into the `(source, period)` sorted set. -/
def addNews (st : RedisStore τ α) (source period : String) (item : NewsItem τ)
    (score : α) : RedisStore τ α :=
  let st1 := { st with items := setAssoc (source, item.id) item st.items }
  { st1 with
    zsets := setAssoc (source, period)
      (zadd item.id score (st1.getZSet source period)) st1.zsets }

/-- Resolve the ids of a `ZREVRANGE` result to payloads, in order.  A
missing payload is the Go `GET` returning `redis.Nil`, which
`RedisStore.TopNews` propagates as the error of the whole call. -/
def resolveAll (st : RedisStore τ α) (source : String) :
    List (String × α) → Except String (List (WithScore τ α))
  | [] => .ok []
  | (id, s) :: rest =>
    match st.getItem source id with
    | none => .error ("redis: nil (missing payload for " ++ id ++ ")")
    | some it =>
      match resolveAll st source rest with
      | .error e => .error e
      | .ok l => .ok ({ item := it, score := s } :: l)

/-- `RedisStore.TopNews` (redis_store.go lines 54–73):
`ZREVRANGEWITHSCORES key 0 (n-1)` followed by a payload `GET` per
member; the first failing `GET` aborts the call. -/
def topNews (st : RedisStore τ α) (source period : String) (n : Int) :
    Except String (List (WithScore τ α)) :=
  st.resolveAll source (zrevrange (st.getZSet source period) 0 (n - 1))

/-- `RedisStore.IsPublished` (redis_store.go lines 75–84): key present
(it is always written as `"1"`). -/
def isPublished (st : RedisStore τ α) (channel period : String) : Bool :=
  decide ((channel, period) ∈ st.published)

/-- `RedisStore.MarkPublished` (redis_store.go lines 86–88): `SET` of
the flag key (30-day TTL; re-setting an existing flag is observably a
no-op since the value is fixed). -/
def markPublished (st : RedisStore τ α) (channel period : String) : RedisStore τ α :=
  if (channel, period) ∈ st.published then st
  else { st with published := (channel, period) :: st.published }

/-- `RedisStore.IsSkipped` (redis_store.go lines 91–100): marker key
present, regardless of value. -/
def isSkipped (st : RedisStore τ α) (channel id : String) : Bool :=
  decide ((channel, id) ∈ st.skipped)

/-- `RedisStore.MarkSkipped` (redis_store.go lines 103–108): no-op when
the duration is non-positive, otherwise `SET` of the marker key with
that expiry. -/
def markSkipped (st : RedisStore τ α) (channel id : String) (d : Int) : RedisStore τ α :=
  if d ≤ 0 then st
  else if (channel, id) ∈ st.skipped then st
  else { st with skipped := (channel, id) :: st.skipped }

end RedisStore


/-- Go `strings.ToLower` (character-wise case fold), structurally over
the character list so that it evaluates in the kernel. -/
def lowerStr (s : String) : String := String.mk (s.data.map Char.toLower)

/-- Go `strings.TrimSpace`, structurally over the character list. -/
def trimStr (s : String) : String :=
  String.mk (((s.data.dropWhile Char.isWhitespace).reverse.dropWhile Char.isWhitespace).reverse)

instance {ε β : Type} [DecidableEq ε] [DecidableEq β] : DecidableEq (Except ε β) := by
  intro a b
  cases a <;> cases b
  case error.error e f =>
    exact if h : e = f then isTrue (by rw [h]) else isFalse (fun hc => h (by injection hc))
  case error.ok e y => exact isFalse (fun hc => Except.noConfusion hc)
  case ok.error x f => exact isFalse (fun hc => Except.noConfusion hc)
  case ok.ok x y =>
    exact if h : x = y then isTrue (by rw [h]) else isFalse (fun hc => h (by injection hc))

/-! ## Digest builder (worker/newsletter_builder.go)

`runOnce` is embedded as a pure transition: given the tick's
environment (the wall clock and the external collaborators — renderer,
optional summarizer, file write outcome) and the store state, it
returns the new store state and the trace of externally visible effects
of the tick.  Store operations never fail in the model (the Go error
branches on store calls log and return / skip the item, and collapse
when the store is available), which is noted per claim. -/

/-- The AI summarizer collaborator (`ai.Summarizer`): both calls may
fail or return an empty string. -/
structure Summarizer (τ : Type) where
  summarizeItem : String → String → String → Except String String
  summarizePost : List (NewsItem τ) → String → Except String String

/-- `newsletter.Item` (internal/newsletter/tmpl.go).  `created` keeps
the raw timestamp; the Go code stores its `"2006-01-02 15:04"` UTC
rendering, a presentation of the same value. -/
structure NewsletterItem (τ : Type) where
  title : String
  url : String
  nodeName : String
  nodeURL : String
  description : String
  replies : Int
  created : τ
  deriving Repr, DecidableEq

/-- `newsletter.Data` (internal/newsletter/tmpl.go, plus the `Summary`
field the builder populates). -/
structure NewsletterData (τ : Type) where
  title : String
  slug : String
  datetime : String
  preface : String
  postscript : String
  summary : String
  items : List (NewsletterItem τ)
  deriving Repr, DecidableEq

/-- The per-tick environment of a builder: the UTC wall clock of the
tick and the external collaborators.  `render` is `newsletter.Render`
(template execution, which may fail); `writeOk` is whether
`os.WriteFile` succeeds for a given path and content. -/
structure BuilderEnv (τ : Type) where
  now : DateTime
  summarizer : Option (Summarizer τ)
  render : NewsletterData τ → Except String String
  writeOk : String → String → Bool

/-- `NewsletterBuilder` configuration (worker/newsletter_builder.go
lines 20–38); the `Quaily` client pointer is reduced to whether it is
configured. -/
structure NewsletterBuilder where
  source : String
  channel : String
  frequency : String
  topN : Int
  minItems : Int
  outputDir : String
  nodes : List String
  skipDuration : Int
  preface : String
  postscript : String
  baseURL : String
  language : String
  titleTemplate : String
  quailyEnabled : Bool
  deriving Repr, DecidableEq

/-- One externally visible action of a builder tick. -/
inductive BuilderEffect where
  | writeFile (path content : String)
  | markPublished (channel period : String)
  | markSkipped (channel id : String) (duration : Int)
  | quailyPublish (path channel : String)
  deriving Repr, DecidableEq

section Builder

variable {τ α : Type} [LinearOrder α] [Zero α]

/-- `filterByNodes` (newsletter_builder.go lines 246–261): exact
case-insensitive membership of the item's node in the configured list;
an empty list passes everything through. -/
def filterByNodes (items : List (WithScore τ α)) (nodes : List String) :
    List (WithScore τ α) :=
  if nodes = [] then items
  else
    let set := nodes.map (fun n => lowerStr (trimStr n))
    items.filter (fun it => decide (lowerStr it.item.nodeName ∈ set))

/-- `filterHNTypes` (newsletter_builder.go lines 296–320): filter only
when the configured list names known HN item types (ask/show/job/story);
otherwise the list names poll lists and no filtering happens here. -/
def filterHNTypes (items : List (WithScore τ α)) (nodes : List String) :
    List (WithScore τ α) :=
  if nodes = [] then items
  else
    let allowed := (nodes.map (fun n => lowerStr (trimStr n))).filter
      (fun s => s == "ask" || s == "show" || s == "job" || s == "story")
    if allowed = [] then items
    else items.filter (fun it => decide (lowerStr it.item.nodeName ∈ allowed))

/-- `nodeURLFor` (newsletter_builder.go lines 271–293). -/
def nodeURLFor (source baseURL node : String) : String :=
  let src := lowerStr (trimStr source)
  let base := baseURL.dropRightWhile (fun c => c = '/')
  if src = "v2ex" then base ++ "/go/" ++ node
  else if src = "hackernews" then
    let n := lowerStr (trimStr node)
    if n = "ask" then base ++ "/ask"
    else if n = "show" then base ++ "/show"
    else if n = "job" ∨ n = "jobs" then base ++ "/jobs"
    else base ++ "/news"
  else base

/-- `NewsletterBuilder.filename` (newsletter_builder.go lines 152–156):
`"<frequency lowered>-<YYYYMMDD>.md"` (the period argument is unused by
the Go code). -/
def builderFilename (cfg : NewsletterBuilder) (now : DateTime) : String :=
  lowerStr cfg.frequency ++ "-" ++ formatYYYYMMDD now.date ++ ".md"

/-- Node display title resolution (newsletter_builder.go lines
179–189, 198–202): use the cached `GetNodeTitle` value when present and
non-blank, else the raw node name. -/
def displayNode (st : RedisStore τ α) (source node : String) : String :=
  match st.getNodeTitle source node with
  | some t => if trimStr t = "" then node else t
  | none => node

/-- Per-item description (newsletter_builder.go lines 192–197): the
summarizer's output when configured, successful and non-empty;
otherwise empty. -/
def itemDescription (env : BuilderEnv τ) (cfg : NewsletterBuilder)
    (it : NewsItem τ) : String :=
  match env.summarizer with
  | none => ""
  | some sz =>
    match sz.summarizeItem it.title it.content cfg.language with
    | .ok d => if d = "" then "" else d
    | .error _ => ""

/-- Document summary (newsletter_builder.go lines 213–232): prefer the
trimmed summarizer output; when blank, fall back to a heuristic built
from the first three item titles (left as-is when there are none). -/
def documentSummary (env : BuilderEnv τ) (cfg : NewsletterBuilder)
    (raw : List (NewsItem τ)) : String :=
  let s0 :=
    match env.summarizer with
    | some sz =>
      match sz.summarizePost raw cfg.language with
      | .ok s => trimStr s
      | .error _ => ""
    | none => ""
  if trimStr s0 = "" then
    let titles := (raw.take (min 3 raw.length)).map (fun it => it.title)
    if titles.length > 0 then
      "Top highlights: " ++ String.intercalate ", " titles ++ "."
    else s0
  else s0

/-- The template data `NewsletterBuilder.renderMarkdown` builds
(newsletter_builder.go lines 158–232) before executing the template. -/
def renderData (env : BuilderEnv τ) (cfg : NewsletterBuilder) (st : RedisStore τ α)
    (items : List (WithScore τ α)) : NewsletterData τ :=
  let postTitle0 := trimStr cfg.titleTemplate
  let postTitle :=
    if postTitle0 = "" then
      "Digest of " ++ cfg.channel ++ " " ++ formatDaily env.now.date
    else postTitle0
  let name := builderFilename cfg env.now
  let slug := if name.endsWith ".md" then name.dropRight 3 else name
  let maxN := (min (items.length : Int) cfg.topN).toNat
  let top := items.take maxN
  { title := postTitle
    slug := slug
    datetime := formatDatetime env.now
    preface := cfg.preface
    postscript := cfg.postscript
    summary := documentSummary env cfg (top.map (fun ws => ws.item))
    items := top.map (fun ws =>
      { title := ws.item.title
        url := ws.item.url
        nodeName := displayNode st cfg.source ws.item.nodeName
        nodeURL := nodeURLFor cfg.source cfg.baseURL ws.item.nodeName
        description := itemDescription env cfg ws.item
        replies := ws.item.replies
        created := ws.item.createdAt }) }

/-- `NewsletterBuilder.renderMarkdown` (newsletter_builder.go lines
158–242): execute the template on the built data; on template failure
log and return the empty string.  (The UTF-8 revalidation of the Go
code is the identity here, Lean strings being valid UTF-8.) -/
def renderMarkdown (env : BuilderEnv τ) (cfg : NewsletterBuilder)
    (st : RedisStore τ α) (items : List (WithScore τ α)) : String :=
  match env.render (renderData env cfg st items) with
  | .ok out => out
  | .error _ => ""

/-- The zero-signal filter of `runOnce` (newsletter_builder.go lines
92–105): HN keeps items with positive score; V2EX additionally requires
a positive reply count. -/
def zeroSignalKeep (cfg : NewsletterBuilder) (ws : WithScore τ α) : Bool :=
  if lowerStr cfg.source = "hackernews" then decide ((0 : α) < ws.score)
  else decide (0 < ws.item.replies) && decide ((0 : α) < ws.score)

/-- The candidate list that survives the three `runOnce` filters
(newsletter_builder.go lines 85–118): source-specific category/node
filtering, zero-signal exclusion, then skip-marker exclusion. -/
def survivors (cfg : NewsletterBuilder) (st : RedisStore τ α)
    (items : List (WithScore τ α)) : List (WithScore τ α) :=
  let afterNodes :=
    if lowerStr cfg.source = "hackernews" then filterHNTypes items cfg.nodes
    else filterByNodes items cfg.nodes
  let nz := afterNodes.filter (zeroSignalKeep cfg)
  nz.filter (fun ws => !(st.isSkipped cfg.channel ws.item.id))

/-- The over-fetch count of `runOnce` (newsletter_builder.go lines
75–79): `TopN * 5`, with the Go int overflow guard. -/
def fetchCount (topN : Int) : Int :=
  if topN * 5 < topN then topN else topN * 5

/-- `NewsletterBuilder.runOnce` (newsletter_builder.go lines 64–150) as
a pure transition, returning the new store state and the trace of
external effects of the tick. -/
def runOnce (env : BuilderEnv τ) (cfg : NewsletterBuilder) (st : RedisStore τ α) :
    RedisStore τ α × List BuilderEffect :=
  let period := periodKey cfg.frequency env.now.date
  if st.isPublished cfg.channel period then (st, [])
  else
    match st.topNews cfg.source period (fetchCount cfg.topN) with
    | .error _ => (st, [])
    | .ok fetched =>
      let items := survivors cfg st fetched
      if (items.length : Int) < cfg.minItems then (st, [])
      else
        let md := renderMarkdown env cfg st items
        let name := builderFilename cfg env.now
        let path := cfg.outputDir ++ "/" ++ cfg.channel ++ "/" ++ name
        if env.writeOk path md then
          let st1 := st.markPublished cfg.channel period
          let rendered := items.take ((min (items.length : Int) cfg.topN).toNat)
          let st2 := rendered.foldl
            (fun s ws => s.markSkipped cfg.channel ws.item.id cfg.skipDuration) st1
          let effs := BuilderEffect.writeFile path md ::
            BuilderEffect.markPublished cfg.channel period ::
            rendered.map (fun ws =>
              BuilderEffect.markSkipped cfg.channel ws.item.id cfg.skipDuration)
          (st2, effs ++ (if cfg.quailyEnabled then [BuilderEffect.quailyPublish path cfg.channel] else []))
        else (st, [])

/-- The ids passed to `MarkSkipped` within an effect trace. -/
def skippedIds (effs : List BuilderEffect) : List String :=
  effs.filterMap (fun e =>
    match e with
    | BuilderEffect.markSkipped _ id _ => some id
    | _ => none)

end Builder

/-! ## Support lemmas: scoring -/

/-- The Go `if diff < 0 { diff = 0 }` clamp is `max 0`. -/
theorem clamp_neg_eq_max (x : ℝ) : (if x < 0 then 0 else x) = max 0 x := by
  rcases lt_or_le x 0 with h | h
  · simp [h, max_eq_left h.le]
  · simp [not_lt.mpr h, max_eq_right h]

theorem rpow_nine_fifths_pow_five {b : ℝ} (hb : 0 ≤ b) :
    (b ^ (1.8 : ℝ)) ^ (5 : ℕ) = b ^ (9 : ℕ) := by
  rw [← Real.rpow_natCast (b ^ (1.8 : ℝ)) 5, ← Real.rpow_mul hb, ← Real.rpow_natCast b 9]
  norm_num

theorem two_rpow_lb : (3.4817 : ℝ) ≤ (2 : ℝ) ^ (1.8 : ℝ) := by
  have hp : (0 : ℝ) < (2 : ℝ) ^ (1.8 : ℝ) := Real.rpow_pos_of_pos (by norm_num) _
  have h5 : ((2 : ℝ) ^ (1.8 : ℝ)) ^ (5 : ℕ) = 512 := by
    rw [rpow_nine_fifths_pow_five (by norm_num : (0:ℝ) ≤ 2)]; norm_num
  refine le_of_pow_le_pow_left₀ (n := 5) (by norm_num) hp.le ?_
  rw [h5]; norm_num

theorem two_rpow_ub : (2 : ℝ) ^ (1.8 : ℝ) ≤ 3.4951 := by
  have h5 : ((2 : ℝ) ^ (1.8 : ℝ)) ^ (5 : ℕ) = 512 := by
    rw [rpow_nine_fifths_pow_five (by norm_num : (0:ℝ) ≤ 2)]; norm_num
  refine le_of_pow_le_pow_left₀ (n := 5) (by norm_num) (by norm_num : (0:ℝ) ≤ 3.4951) ?_
  rw [h5]; norm_num

theorem twentyfour_rpow_lb : (304.6 : ℝ) ≤ (24 : ℝ) ^ (1.8 : ℝ) := by
  have hp : (0 : ℝ) < (24 : ℝ) ^ (1.8 : ℝ) := Real.rpow_pos_of_pos (by norm_num) _
  have h5 : ((24 : ℝ) ^ (1.8 : ℝ)) ^ (5 : ℕ) = 2641807540224 := by
    rw [rpow_nine_fifths_pow_five (by norm_num : (0:ℝ) ≤ 24)]; norm_num
  refine le_of_pow_le_pow_left₀ (n := 5) (by norm_num) hp.le ?_
  rw [h5]; norm_num

theorem twentyfour_rpow_ub : (24 : ℝ) ^ (1.8 : ℝ) ≤ 305.6 := by
  have h5 : ((24 : ℝ) ^ (1.8 : ℝ)) ^ (5 : ℕ) = 2641807540224 := by
    rw [rpow_nine_fifths_pow_five (by norm_num : (0:ℝ) ≤ 24)]; norm_num
  refine le_of_pow_le_pow_left₀ (n := 5) (by norm_num) (by norm_num : (0:ℝ) ≤ 305.6) ?_
  rw [h5]; norm_num

/-- The formula branch of `popularityScore`, for a positive reply count
(the clamp to `0` never fires: numerator and denominator are
non-negative). -/
theorem popularityScore_of_pos (now : ℝ) (it : NewsItem ℝ) (h : 0 < it.replies) :
    popularityScore now it
      = ((it.replies - 1 : ℤ) : ℝ) / (max 0 (now - it.createdAt) + 2) ^ (1.8 : ℝ) := by
  have hnum : (0 : ℝ) ≤ ((it.replies - 1 : ℤ) : ℝ) := by
    have : (0 : ℤ) ≤ it.replies - 1 := by omega
    exact_mod_cast this
  have hden : (0 : ℝ) ≤ ((if now - it.createdAt < 0 then 0 else now - it.createdAt) + 2) ^ (1.8 : ℝ) := by
    apply Real.rpow_nonneg
    split_ifs with hc
    · norm_num
    · push_neg at hc
      linarith
  simp only [popularityScore, not_le.mpr h, if_false]
  rw [if_neg (not_lt.mpr (div_nonneg hnum hden)), clamp_neg_eq_max]

/-- The formula branch of `hnPopularityScore`, for a positive point
count. -/
theorem hnPopularityScore_of_pos (now : ℝ) (it : NewsItem ℝ) (h : 0 < it.points) :
    hnPopularityScore now it
      = ((it.points - 1 : ℤ) : ℝ) / (max 0 (now - it.createdAt) + 2) ^ (1.8 : ℝ) := by
  have hnum : (0 : ℝ) ≤ ((it.points - 1 : ℤ) : ℝ) := by
    have : (0 : ℤ) ≤ it.points - 1 := by omega
    exact_mod_cast this
  have hden : (0 : ℝ) ≤ ((if now - it.createdAt < 0 then 0 else now - it.createdAt) + 2) ^ (1.8 : ℝ) := by
    apply Real.rpow_nonneg
    split_ifs with hc
    · norm_num
    · push_neg at hc
      linarith
  simp only [hnPopularityScore, not_le.mpr h, if_false]
  rw [if_neg (not_lt.mpr (div_nonneg hnum hden)), clamp_neg_eq_max]

/-- The spec's scenario item: engagement count 10, created at time 0. -/
def scenItem : NewsItem ℝ :=
  { id := "scen", title := "scenario", url := "https://example.com/scen",
    nodeName := "tech", replies := 10, points := 10, createdAt := 0, content := "" }

theorem popularityScore_scen_age0 : popularityScore 0 scenItem = 9 / (2 : ℝ) ^ (1.8 : ℝ) := by
  rw [popularityScore_of_pos 0 scenItem (by norm_num [scenItem])]
  norm_num [scenItem]

theorem popularityScore_scen_age22 : popularityScore 22 scenItem = 9 / (24 : ℝ) ^ (1.8 : ℝ) := by
  rw [popularityScore_of_pos 22 scenItem (by norm_num [scenItem])]
  norm_num [scenItem]

theorem scen0_lt : popularityScore 0 scenItem < 2.585 := by
  rw [popularityScore_scen_age0]
  calc 9 / (2 : ℝ) ^ (1.8 : ℝ) ≤ 9 / 3.4817 :=
        div_le_div_of_nonneg_left (by norm_num) (by norm_num) two_rpow_lb
    _ < 2.585 := by norm_num

theorem scen0_gt : 2.575 < popularityScore 0 scenItem := by
  rw [popularityScore_scen_age0]
  have hp : (0 : ℝ) < (2 : ℝ) ^ (1.8 : ℝ) := Real.rpow_pos_of_pos (by norm_num) _
  calc (2.575 : ℝ) < 9 / 3.4951 := by norm_num
    _ ≤ 9 / (2 : ℝ) ^ (1.8 : ℝ) := div_le_div_of_nonneg_left (by norm_num) hp two_rpow_ub

theorem scen22_lt : popularityScore 22 scenItem < 0.02955 := by
  rw [popularityScore_scen_age22]
  calc 9 / (24 : ℝ) ^ (1.8 : ℝ) ≤ 9 / 304.6 :=
        div_le_div_of_nonneg_left (by norm_num) (by norm_num) twentyfour_rpow_lb
    _ < 0.02955 := by norm_num

theorem scen22_gt : 0.02945 < popularityScore 22 scenItem := by
  rw [popularityScore_scen_age22]
  have hp : (0 : ℝ) < (24 : ℝ) ^ (1.8 : ℝ) := Real.rpow_pos_of_pos (by norm_num) _
  calc (0.02945 : ℝ) < 9 / 305.6 := by norm_num
    _ ≤ 9 / (24 : ℝ) ^ (1.8 : ℝ) := div_le_div_of_nonneg_left (by norm_num) hp twentyfour_rpow_ub

/-- C5 (amended): for a positive engagement count the score is exactly
`(count - 1) / (age_hours + 2)^1.8` with `age_hours = max 0 (now -
created_at)` — count being the reply count for the v2ex scorer and the
point count for the hackernews scorer; the scenario count=10 values are
`9 / 2^1.8 ≈ 2.58` at age 0h and `9 / 24^1.8 ≈ 0.0295` at age 22h (to
half a unit in the last displayed digit), not the `≈ 2.57` / `≈ 0.033`
the claim displays. -/
theorem c5_scoring_formula :
    (∀ (now : ℝ) (it : NewsItem ℝ), 0 < it.replies →
      popularityScore now it
        = ((it.replies - 1 : ℤ) : ℝ) / (max 0 (now - it.createdAt) + 2) ^ (1.8 : ℝ))
    ∧ (∀ (now : ℝ) (it : NewsItem ℝ), 0 < it.points →
      hnPopularityScore now it
        = ((it.points - 1 : ℤ) : ℝ) / (max 0 (now - it.createdAt) + 2) ^ (1.8 : ℝ))
    ∧ |popularityScore 0 scenItem - 2.58| < 5 / 1000
    ∧ |popularityScore 22 scenItem - 0.0295| < 5 / 100000 := by
  refine ⟨popularityScore_of_pos, hnPopularityScore_of_pos, ?_, ?_⟩
  · rw [abs_sub_lt_iff]
    exact ⟨by linarith [scen0_lt], by linarith [scen0_gt]⟩
  · rw [abs_sub_lt_iff]
    exact ⟨by linarith [scen22_lt], by linarith [scen22_gt]⟩

/-- C5 counterexample: at the precision the claim displays (half a unit
in the last digit, and in fact with three- resp. six-fold slack), the
claimed approximations fail: the age-0 score exceeds `2.57` by more
than `0.005`, and the age-22 score misses `0.033` by more than
`0.003`. -/
theorem c5_approximation_counterexample :
    5 / 1000 < |popularityScore 0 scenItem - 2.57|
    ∧ 3 / 1000 < |popularityScore 22 scenItem - 0.033| := by
  constructor
  · have h : (5 : ℝ) / 1000 < popularityScore 0 scenItem - 2.57 := by
      linarith [scen0_gt]
    exact lt_of_lt_of_le h (le_abs_self _)
  · have h : (3 : ℝ) / 1000 < -(popularityScore 22 scenItem - 0.033) := by
      linarith [scen22_lt]
    exact lt_of_lt_of_le h (neg_le_abs _)

/-- C5 witness: the amended formula applied to the concrete scenario
item (count 10, age 0). -/
theorem c5_scoring_formula_witness :
    0 < scenItem.replies
    ∧ popularityScore 0 scenItem
        = ((scenItem.replies - 1 : ℤ) : ℝ)
            / (max 0 ((0 : ℝ) - scenItem.createdAt) + 2) ^ (1.8 : ℝ) :=
  ⟨by norm_num [scenItem], c5_scoring_formula.1 0 scenItem (by norm_num [scenItem])⟩

/-- C6: an engagement count of at most 1 — whether `≤ 0` (the explicit
guard) or exactly 1 (zero numerator) — scores exactly 0 at every age,
in both scorers. -/
theorem c6_low_count_zero : ∀ (now : ℝ) (it : NewsItem ℝ),
    (it.replies ≤ 1 → popularityScore now it = 0)
    ∧ (it.points ≤ 1 → hnPopularityScore now it = 0) := by
  intro now it
  constructor
  · intro h
    by_cases hz : it.replies ≤ 0
    · simp [popularityScore, hz]
    · have h1 : it.replies = 1 := by omega
      simp [popularityScore, hz, h1]
  · intro h
    by_cases hz : it.points ≤ 0
    · simp [hnPopularityScore, hz]
    · have h1 : it.points = 1 := by omega
      simp [hnPopularityScore, hz, h1]

/-- A concrete low-engagement item: 1 reply, 0 points. -/
def lowItem : NewsItem ℝ :=
  { id := "low", title := "low", url := "https://example.com/low",
    nodeName := "tech", replies := 1, points := 0, createdAt := 5, content := "" }

/-- C6 witness: both the `count = 1` and the `count ≤ 0` cases at a
concrete item and age. -/
theorem c6_low_count_zero_witness :
    (lowItem.replies ≤ 1 ∧ popularityScore 3 lowItem = 0)
    ∧ (lowItem.points ≤ 1 ∧ hnPopularityScore 3 lowItem = 0) :=
  ⟨⟨by norm_num [lowItem], (c6_low_count_zero 3 lowItem).1 (by norm_num [lowItem])⟩,
   ⟨by norm_num [lowItem], (c6_low_count_zero 3 lowItem).2 (by norm_num [lowItem])⟩⟩

/-! ## Support: periodKey -/

theorem periodKey_weekly (t : Date) : periodKey "weekly" t = formatISOWeek t := rfl

theorem periodKey_of_ne_weekly {f : String} (hf : f ≠ "weekly") (t : Date) :
    periodKey f t = formatDaily t := by
  unfold periodKey
  split
  · exact absurd rfl hf
  · rfl

/-- C10: `periodKey` renders `"weekly"` as the zero-padded
`%04d-W%02d` of the ISO-8601 week pair and every other frequency string
— `"monthly"`, the empty string, anything unrecognized — as the UTC
`YYYY-MM-DD` daily date, falling back silently rather than failing. -/
theorem c10_periodKey_frequencies : ∀ (t : Date) (f : String),
    periodKey "weekly" t = padInt 4 (isoWeekOf t).1 ++ "-W" ++ padInt 2 (isoWeekOf t).2
    ∧ (f ≠ "weekly" →
        periodKey f t = padInt 4 t.year ++ "-" ++ padInt 2 t.month ++ "-" ++ padInt 2 t.day) := by
  intro t f
  exact ⟨rfl, fun hf => periodKey_of_ne_weekly hf t⟩

/-- The Sunday 2026-10-11, used as the concrete tick date of the
witnesses (ISO week 2026-W41). -/
def octDate : Date := { year := 2026, month := 10, day := 11 }

/-- C10 witness: the unrecognized frequencies `"monthly"` and `""` fall
back to the daily key at a concrete date, and `"weekly"` produces the
ISO week key. -/
theorem c10_periodKey_frequencies_witness :
    (("monthly" : String) ≠ "weekly" ∧ periodKey "monthly" octDate = "2026-10-11")
    ∧ (("" : String) ≠ "weekly" ∧ periodKey "" octDate = "2026-10-11")
    ∧ periodKey "weekly" octDate = "2026-W41" :=
  ⟨⟨by decide, ((c10_periodKey_frequencies octDate "monthly").2 (by decide)).trans (by decide)⟩,
   ⟨by decide, ((c10_periodKey_frequencies octDate "").2 (by decide)).trans (by decide)⟩,
   (c10_periodKey_frequencies octDate "monthly").1.trans (by decide)⟩

/-! ## Concrete fixtures for the builder/store witnesses
(score type `ℤ`, timestamp type `ℤ`, so everything evaluates). -/

def fxItem (i node : String) (r : Int) : NewsItem Int :=
  { id := i, title := "t" ++ i, url := "https://x/" ++ i, nodeName := node,
    replies := r, points := r, createdAt := 0, content := "" }

/-- Three ranked v2ex items for 2026-10-11: `b` (apple, score 9),
`a` (crypto, 7), `c` (crypto, 2). -/
def fxStore : RedisStore Int Int :=
  { items := [(("v2ex", "a"), fxItem "a" "crypto" 3),
              (("v2ex", "b"), fxItem "b" "apple" 5),
              (("v2ex", "c"), fxItem "c" "crypto" 2)]
    zsets := [(("v2ex", "2026-10-11"), [("b", 9), ("a", 7), ("c", 2)])]
    published := []
    skipped := []
    nodeTitles := [] }

def fxCfg : NewsletterBuilder :=
  { source := "v2ex", channel := "ch", frequency := "daily", topN := 2, minItems := 2,
    outputDir := "out", nodes := ["crypto"], skipDuration := 3600,
    preface := "", postscript := "", baseURL := "https://www.v2ex.com",
    language := "en", titleTemplate := "", quailyEnabled := false }

def fxEnv : BuilderEnv Int :=
  { now := { year := 2026, month := 10, day := 11, hour := 8, minute := 30 },
    summarizer := none,
    render := fun _ => .ok "BODY",
    writeOk := fun _ _ => true }

/-- `fxStore` with the (ch, 2026-10-11) published flag already set. -/
def fxStorePub : RedisStore Int Int :=
  { fxStore with published := [("ch", "2026-10-11")] }

/-- What `TopNews` over-fetching returns from `fxStore` on the tick
date. -/
def fxFetched : List (WithScore Int Int) :=
  [{ item := fxItem "b" "apple" 5, score := 9 },
   { item := fxItem "a" "crypto" 3, score := 7 },
   { item := fxItem "c" "crypto" 2, score := 2 }]

/-! ## C1: published flag short-circuits the tick -/

/-- C1: if `is_published(channel, period)` is true at the start of a
builder tick, the tick changes no store state and performs no external
effect — no file write, no `mark_published`, no `mark_skipped`. -/
theorem c1_published_tick_noop {τ α : Type} [LinearOrder α] [Zero α]
    (env : BuilderEnv τ) (cfg : NewsletterBuilder) (st : RedisStore τ α)
    (h : st.isPublished cfg.channel (periodKey cfg.frequency env.now.date) = true) :
    runOnce env cfg st = (st, []) := by
  simp [runOnce, h]

/-- C1 witness: the concrete already-published store. -/
theorem c1_published_tick_noop_witness :
    fxStorePub.isPublished fxCfg.channel (periodKey fxCfg.frequency fxEnv.now.date) = true
    ∧ runOnce fxEnv fxCfg fxStorePub = (fxStorePub, []) :=
  ⟨by decide, c1_published_tick_noop fxEnv fxCfg fxStorePub (by decide)⟩

/-! ## C2: minimum-items gate -/

/-- C2: when the candidates surviving category filtering, zero-signal
exclusion and skip-marker exclusion number strictly fewer than the
channel's minimum, the tick writes no file and leaves the published
flag and every skip marker (indeed the whole store) unchanged, with no
external effect. -/
theorem c2_min_items_gate {τ α : Type} [LinearOrder α] [Zero α]
    (env : BuilderEnv τ) (cfg : NewsletterBuilder) (st : RedisStore τ α)
    (fetched : List (WithScore τ α))
    (h1 : st.isPublished cfg.channel (periodKey cfg.frequency env.now.date) = false)
    (h2 : st.topNews cfg.source (periodKey cfg.frequency env.now.date)
            (fetchCount cfg.topN) = .ok fetched)
    (h3 : ((survivors cfg st fetched).length : ℤ) < cfg.minItems) :
    runOnce env cfg st = (st, []) := by
  simp only [runOnce, h1, Bool.false_eq_true, if_false, h2]
  rw [if_pos h3]

/-- `fxCfg` with a minimum of 5 items (only 2 survive filtering). -/
def fxCfgMin5 : NewsletterBuilder := { fxCfg with minItems := 5 }

/-- C2 witness: 2 surviving candidates < minimum 5 ⇒ no-op tick. -/
theorem c2_min_items_gate_witness :
    fxStore.isPublished fxCfgMin5.channel (periodKey fxCfgMin5.frequency fxEnv.now.date) = false
    ∧ fxStore.topNews fxCfgMin5.source (periodKey fxCfgMin5.frequency fxEnv.now.date)
        (fetchCount fxCfgMin5.topN) = .ok fxFetched
    ∧ ((survivors fxCfgMin5 fxStore fxFetched).length : ℤ) < fxCfgMin5.minItems
    ∧ runOnce fxEnv fxCfgMin5 fxStore = (fxStore, []) :=
  ⟨by decide, by decide, by decide,
   c2_min_items_gate fxEnv fxCfgMin5 fxStore fxFetched (by decide) (by decide) (by decide)⟩

/-! ## Support: store algebra (for the AddNews idempotence claim) -/

theorem setAssoc_idem {κ β : Type} [DecidableEq κ] (k : κ) (v : β) (l : List (κ × β)) :
    setAssoc k v (setAssoc k v l) = setAssoc k v l := by
  induction l with
  | nil => simp [setAssoc]
  | cons p rest ih =>
    by_cases h : p.1 = k
    · simp [setAssoc, h]
    · simp [setAssoc, h, ih]

theorem getAssoc_setAssoc_self {κ β : Type} [DecidableEq κ] (k : κ) (v : β)
    (l : List (κ × β)) : getAssoc k (setAssoc k v l) = some v := by
  induction l with
  | nil => simp [setAssoc, getAssoc]
  | cons p rest ih =>
    by_cases h : p.1 = k
    · simp [setAssoc, h, getAssoc]
    · simp [setAssoc, h, getAssoc, ih]

theorem filter_ne_zinsert {α : Type} [LinearOrder α] (id : String) (s : α)
    (l : List (String × α)) :
    (zinsert id s l).filter (fun p => p.1 ≠ id) = l.filter (fun p => p.1 ≠ id) := by
  induction l with
  | nil => simp [zinsert]
  | cons p rest ih =>
    by_cases h : s < p.2 ∨ (s = p.2 ∧ id < p.1)
    · simp only [zinsert, if_pos h, List.filter_cons]
      rw [ih]
    · simp only [zinsert, if_neg h, List.filter_cons]
      simp

theorem zadd_idem {α : Type} [LinearOrder α] (id : String) (s : α)
    (z : List (String × α)) : zadd id s (zadd id s z) = zadd id s z := by
  unfold zadd
  rw [filter_ne_zinsert, List.filter_filter]
  simp

theorem zscore_zinsert_of_absent {α : Type} [LinearOrder α] (id : String) (s : α)
    (l : List (String × α)) (h : ∀ p ∈ l, p.1 ≠ id) :
    zscore id (zinsert id s l) = some s := by
  induction l with
  | nil => simp [zinsert, zscore]
  | cons p rest ih =>
    have hp : p.1 ≠ id := h p (by simp)
    by_cases hc : s < p.2 ∨ (s = p.2 ∧ id < p.1)
    · simp only [zinsert, if_pos hc, zscore, List.find?]
      have : (decide (p.1 = id)) = false := by simp [hp]
      rw [this]
      exact ih (fun q hq => h q (by simp [hq]))
    · simp only [zinsert, if_neg hc, zscore]
      simp [List.find?]

theorem zscore_zadd_self {α : Type} [LinearOrder α] (id : String) (s : α)
    (z : List (String × α)) : zscore id (zadd id s z) = some s := by
  unfold zadd
  apply zscore_zinsert_of_absent
  intro p hp
  have := List.of_mem_filter hp
  simpa using this

/-! ## C9: AddNews idempotence -/

/-- C9: repeating `AddNews` with the same item and score is observably
a no-op — the store state is identical to that after one call — and
after the call the payload and the ranked-set score both reflect the
(latest) call.  Last-write-wins and unchanged membership follow from
the state equality. -/
theorem c9_addNews_idempotent {τ α : Type} [LinearOrder α]
    (st : RedisStore τ α) (source period : String) (item : NewsItem τ) (score : α) :
    (st.addNews source period item score).addNews source period item score
        = st.addNews source period item score
    ∧ (st.addNews source period item score).getItem source item.id = some item
    ∧ zscore item.id ((st.addNews source period item score).getZSet source period)
        = some score := by
  obtain ⟨its, zs, pb, sk, nt⟩ := st
  refine ⟨?_, ?_, ?_⟩
  · simp [RedisStore.addNews, RedisStore.getZSet, setAssoc_idem,
      getAssoc_setAssoc_self, zadd_idem]
  · simp [RedisStore.addNews, RedisStore.getItem, getAssoc_setAssoc_self]
  · simp [RedisStore.addNews, RedisStore.getZSet, getAssoc_setAssoc_self, zscore_zadd_self]

/-! ## Support: TopNews -/

/-- Redis sorted-set invariant, in reverse (`ZREVRANGE`) order: strictly
descending by (score, member) lexicographically — which makes members
pairwise distinct. -/
def ZWF {α : Type} [LinearOrder α] (z : List (String × α)) : Prop :=
  z.Pairwise (fun a b => b.2 < a.2 ∨ (b.2 = a.2 ∧ b.1 < a.1))

/-- Every sorted set held in the store is well-formed (true of every
Redis-backed state). -/
def StoreWF {τ α : Type} [LinearOrder α] (st : RedisStore τ α) : Prop :=
  ∀ kz ∈ st.zsets, ZWF kz.2

instance {α : Type} [LinearOrder α] (z : List (String × α)) : Decidable (ZWF z) := by
  unfold ZWF
  infer_instance

instance {τ α : Type} [LinearOrder α] (st : RedisStore τ α) : Decidable (StoreWF st) := by
  unfold StoreWF
  infer_instance

theorem getAssoc_mem {κ β : Type} [DecidableEq κ] {k : κ} {v : β} :
    ∀ {l : List (κ × β)}, getAssoc k l = some v → (k, v) ∈ l := by
  intro l
  induction l with
  | nil => intro h; simp [getAssoc] at h
  | cons p rest ih =>
    intro h
    by_cases hc : p.1 = k
    · rw [getAssoc, if_pos hc] at h
      have hv : p.2 = v := by injection h
      have hpv : p = (k, v) := by
        calc p = (p.1, p.2) := rfl
          _ = (k, v) := by rw [hc, hv]
      rw [← hpv]
      exact List.mem_cons_self p rest
    · rw [getAssoc, if_neg hc] at h
      exact List.mem_cons_of_mem _ (ih h)

theorem ZWF_getZSet {τ α : Type} [LinearOrder α] {st : RedisStore τ α}
    (h : StoreWF st) (source period : String) : ZWF (st.getZSet source period) := by
  unfold RedisStore.getZSet
  cases hres : getAssoc (source, period) st.zsets with
  | none => simp [ZWF]
  | some z => simpa using h ((source, period), z) (getAssoc_mem hres)

theorem zrevrange_sublist {β : Type} (l : List β) (a b : Int) :
    (zrevrange l a b).Sublist l := by
  unfold zrevrange
  split
  · exact List.nil_sublist l
  · exact (List.drop_sublist _ _).trans (List.take_sublist _ _)

theorem zrevrange_length_le {β : Type} (l : List β) (n : Int) (hn : 1 ≤ n) :
    ((zrevrange l 0 (n - 1)).length : ℤ) ≤ n := by
  have hs : normStart l.length 0 = 0 := by simp [normStart]
  have he : normStop l.length (n - 1) = n - 1 := by
    unfold normStop
    rw [if_neg (by omega)]
  unfold zrevrange
  rw [hs, he]
  split
  · simp
    omega
  · simp only [List.length_drop, List.length_take]
    omega

theorem resolveAll_ok_forall2 {τ α : Type} [LinearOrder α] {st : RedisStore τ α}
    {source : String} :
    ∀ {sl : List (String × α)} {l : List (WithScore τ α)},
      st.resolveAll source sl = .ok l →
      List.Forall₂ (fun (ws : WithScore τ α) (p : String × α) =>
        st.getItem source p.1 = some ws.item ∧ ws.score = p.2) l sl := by
  intro sl
  induction sl with
  | nil =>
    intro l h
    simp only [RedisStore.resolveAll] at h
    have : l = [] := by injection h; simp_all
    subst this
    exact List.Forall₂.nil
  | cons p rest ih =>
    intro l h
    obtain ⟨id, s⟩ := p
    simp only [RedisStore.resolveAll] at h
    cases hg : st.getItem source id with
    | none => rw [hg] at h; exact absurd h (by simp)
    | some it =>
      rw [hg] at h
      cases hr : st.resolveAll source rest with
      | error e => rw [hr] at h; exact absurd h (by simp)
      | ok l2 =>
        rw [hr] at h
        have hl : l = { item := it, score := s } :: l2 := by
          injection h with h2
          exact h2.symm
        subst hl
        exact List.Forall₂.cons ⟨hg, rfl⟩ (ih hr)

theorem forall2_scores {τ α : Type} {st : RedisStore τ α} {source : String}
    {l : List (WithScore τ α)} {sl : List (String × α)}
    (h : List.Forall₂ (fun (ws : WithScore τ α) (p : String × α) =>
      st.getItem source p.1 = some ws.item ∧ ws.score = p.2) l sl) :
    l.map (fun ws => ws.score) = sl.map (fun p => p.2) := by
  induction h with
  | nil => simp
  | cons hR _ ih => simp [hR.2, ih]

theorem resolveAll_error_of_missing {τ α : Type} [LinearOrder α]
    {st : RedisStore τ α} {source : String} :
    ∀ {sl : List (String × α)}, (∃ p ∈ sl, st.getItem source p.1 = none) →
      ∃ e, st.resolveAll source sl = .error e := by
  intro sl
  induction sl with
  | nil => rintro ⟨p, hp, -⟩; simp at hp
  | cons q rest ih =>
    rintro ⟨p, hp, hmiss⟩
    obtain ⟨id, s⟩ := q
    rcases List.mem_cons.mp hp with rfl | htail
    · exact ⟨_, by simp only [RedisStore.resolveAll]; rw [hmiss]⟩
    · cases hg : st.getItem source id with
      | none => exact ⟨_, by simp only [RedisStore.resolveAll]; rw [hg]⟩
      | some it =>
        obtain ⟨e, he⟩ := ih ⟨p, htail, hmiss⟩
        refine ⟨e, ?_⟩
        simp only [RedisStore.resolveAll]
        rw [hg, he]

theorem topNews_ok_scores_sorted {τ α : Type} [LinearOrder α] {st : RedisStore τ α}
    {source period : String} {n : Int} {l : List (WithScore τ α)}
    (hwf : StoreWF st) (h : st.topNews source period n = .ok l) :
    (l.map (fun ws => ws.score)).Pairwise (fun a b => b ≤ a) := by
  unfold RedisStore.topNews at h
  have hf := resolveAll_ok_forall2 h
  rw [forall2_scores hf]
  have hz : (st.getZSet source period).Pairwise
      (fun a b : String × α => b.2 ≤ a.2) :=
    (ZWF_getZSet hwf source period).imp (fun hab => by
      rcases hab with hlt | ⟨heq, -⟩
      · exact hlt.le
      · exact heq.le)
  have hsl : (zrevrange (st.getZSet source period) 0 (n - 1)).Pairwise
      (fun a b : String × α => b.2 ≤ a.2) :=
    hz.sublist (zrevrange_sublist _ _ _)
  exact (List.pairwise_map).mpr hsl

/-! ## C7: TopNews bound / order / score pairing -/

/-- C7 (amended): for a requested count `n ≥ 1`, a successful
`top_items` call returns at most `n` items, in descending score order,
each being the stored payload of a ranked member paired with that
member's stored score.  (For `n = 0` the Redis range `0 .. -1` returns
the whole set — see the counterexample.) -/
theorem c7_topNews_bounded_sorted {τ α : Type} [LinearOrder α] (st : RedisStore τ α)
    (source period : String) (n : Int) (l : List (WithScore τ α))
    (hwf : StoreWF st) (hn : 1 ≤ n)
    (h : st.topNews source period n = .ok l) :
    (l.length : ℤ) ≤ n
    ∧ List.Forall₂ (fun (ws : WithScore τ α) (p : String × α) =>
        st.getItem source p.1 = some ws.item ∧ ws.score = p.2) l
        (zrevrange (st.getZSet source period) 0 (n - 1))
    ∧ (zrevrange (st.getZSet source period) 0 (n - 1)).Sublist (st.getZSet source period)
    ∧ (l.map (fun ws => ws.score)).Pairwise (fun a b => b ≤ a) := by
  have hsorted := topNews_ok_scores_sorted hwf h
  unfold RedisStore.topNews at h
  have hf := resolveAll_ok_forall2 h
  refine ⟨?_, hf, zrevrange_sublist _ _ _, hsorted⟩
  rw [hf.length_eq]
  exact zrevrange_length_le _ n hn

/-- C7 counterexample: requesting `n = 0` items does not return at most
0 items — the Redis index arithmetic (`ZREVRANGE key 0 -1`) returns the
whole ranked set, here all three members. -/
theorem c7_topNews_zero_counterexample :
    fxStore.topNews "v2ex" "2026-10-11" 0 = .ok fxFetched
    ∧ ¬ ((fxFetched.length : ℤ) ≤ 0) :=
  ⟨by decide, by decide⟩

/-- C7 witness: the amended bound at the concrete store with `n = 2`. -/
theorem c7_topNews_bounded_sorted_witness :
    StoreWF fxStore ∧ (1 : ℤ) ≤ 2
    ∧ (([{ item := fxItem "b" "apple" 5, score := (9 : ℤ) },
         { item := fxItem "a" "crypto" 3, score := 7 }] : List (WithScore Int Int)).length : ℤ) ≤ 2
    ∧ (([{ item := fxItem "b" "apple" 5, score := (9 : ℤ) },
         { item := fxItem "a" "crypto" 3, score := 7 }] : List (WithScore Int Int)).map
          (fun ws => ws.score)).Pairwise (fun a b => b ≤ a) := by
  have h := c7_topNews_bounded_sorted fxStore "v2ex" "2026-10-11" 2
    [{ item := fxItem "b" "apple" 5, score := 9 },
     { item := fxItem "a" "crypto" 3, score := 7 }]
    (by decide) (by omega) (by decide)
  exact ⟨by decide, by omega, h.1, h.2.2.2⟩

/-! ## C3: dangling ranked-set entries are a fatal TopNews error -/

/-- A store whose ranked set points at an expired/missing payload. -/
def fxDangling : RedisStore Int Int :=
  { items := [], zsets := [(("v2ex", "p"), [("a", 1)])],
    published := [], skipped := [], nodeTitles := [] }

/-- C3 counterexample: a ranked member whose payload is missing is not
skipped — `TopNews` propagates the `GET` miss (`redis.Nil`) as the
error of the whole call, returning no items at all. -/
theorem c3_topNews_missing_payload_counterexample :
    fxDangling.topNews "v2ex" "p" 5
      = Except.error "redis: nil (missing payload for a)" := by
  decide

/-- C3 (amended): whenever any ranked member within the requested range
has no stored payload, `top_items` fails as a whole with an error; the
resolvable members are not returned. -/
theorem c3_topNews_missing_payload_fatal {τ α : Type} [LinearOrder α]
    (st : RedisStore τ α) (source period : String) (n : Int) (id : String) (s : α)
    (hmem : (id, s) ∈ zrevrange (st.getZSet source period) 0 (n - 1))
    (hmiss : st.getItem source id = none) :
    ∃ e, st.topNews source period n = .error e := by
  unfold RedisStore.topNews
  exact resolveAll_error_of_missing ⟨(id, s), hmem, hmiss⟩

/-- C3 witness: the amended behaviour at the concrete dangling store. -/
theorem c3_topNews_missing_payload_fatal_witness :
    (("a", (1 : ℤ)) ∈ zrevrange (fxDangling.getZSet "v2ex" "p") 0 (5 - 1))
    ∧ fxDangling.getItem "v2ex" "a" = none
    ∧ ∃ e, fxDangling.topNews "v2ex" "p" 5 = .error e :=
  ⟨by decide, by decide,
   c3_topNews_missing_payload_fatal fxDangling "v2ex" "p" 5 "a" 1 (by decide) (by decide)⟩

/-! ## Support: the successful-tick normal form of runOnce -/

theorem take_int_min {β : Type} (l : List β) (t : Int) :
    l.take ((min (l.length : ℤ) t).toNat) = l.take t.toNat := by
  have h : ((min (l.length : ℤ) t)).toNat = min l.length t.toNat := by omega
  rw [h]
  rcases le_total l.length t.toNat with hc | hc
  · rw [min_eq_left hc, List.take_length, List.take_of_length_le hc]
  · rw [min_eq_right hc]

/-- When every gate of a tick passes (not yet published, candidates
fetched, minimum met, write succeeded), `runOnce` produces exactly: the
file write, the published mark, and one skip mark per rendered item
(the first top-N survivors), in that order — plus the optional external
publish. -/
theorem runOnce_success_eq {τ α : Type} [LinearOrder α] [Zero α]
    (env : BuilderEnv τ) (cfg : NewsletterBuilder) (st : RedisStore τ α)
    (fetched : List (WithScore τ α))
    (h1 : st.isPublished cfg.channel (periodKey cfg.frequency env.now.date) = false)
    (h2 : st.topNews cfg.source (periodKey cfg.frequency env.now.date)
            (fetchCount cfg.topN) = .ok fetched)
    (h3 : cfg.minItems ≤ ((survivors cfg st fetched).length : ℤ))
    (h4 : ∀ p c, env.writeOk p c = true) :
    runOnce env cfg st =
      (((survivors cfg st fetched).take cfg.topN.toNat).foldl
          (fun s ws => s.markSkipped cfg.channel ws.item.id cfg.skipDuration)
          (st.markPublished cfg.channel (periodKey cfg.frequency env.now.date)),
       BuilderEffect.writeFile
           (cfg.outputDir ++ "/" ++ cfg.channel ++ "/" ++ builderFilename cfg env.now)
           (renderMarkdown env cfg st (survivors cfg st fetched)) ::
         BuilderEffect.markPublished cfg.channel (periodKey cfg.frequency env.now.date) ::
         (((survivors cfg st fetched).take cfg.topN.toNat).map (fun ws =>
             BuilderEffect.markSkipped cfg.channel ws.item.id cfg.skipDuration)
           ++ (if cfg.quailyEnabled then
                [BuilderEffect.quailyPublish
                  (cfg.outputDir ++ "/" ++ cfg.channel ++ "/" ++ builderFilename cfg env.now)
                  cfg.channel]
              else []))) := by
  simp only [runOnce, h1, Bool.false_eq_true, if_false, h2]
  rw [if_neg (not_lt.mpr h3), if_pos (h4 _ _), take_int_min]
  simp

/-! ## Support: skip-marker accounting and filter sublists -/

theorem isSkipped_markPublished {τ α : Type} [LinearOrder α] (st : RedisStore τ α)
    (ch p ch2 id : String) :
    (st.markPublished ch p).isSkipped ch2 id = st.isSkipped ch2 id := by
  unfold RedisStore.markPublished
  split <;> rfl

theorem isSkipped_markSkipped {τ α : Type} [LinearOrder α] (st : RedisStore τ α)
    (ch j id : String) (d : Int) (hd : 0 < d) :
    ((st.markSkipped ch j d).isSkipped ch id = true
      ↔ (st.isSkipped ch id = true ∨ id = j)) := by
  unfold RedisStore.markSkipped RedisStore.isSkipped
  rw [if_neg (by omega : ¬ d ≤ 0)]
  split
  · rename_i hmem
    simp only [decide_eq_true_eq]
    constructor
    · exact Or.inl
    · rintro (h | rfl)
      · exact h
      · exact hmem
  · simp only [decide_eq_true_eq, List.mem_cons, Prod.mk.injEq]
    constructor
    · rintro (⟨-, h⟩ | h)
      · exact Or.inr h
      · exact Or.inl h
    · rintro (h | h)
      · exact Or.inr h
      · exact Or.inl ⟨trivial, h⟩

theorem isSkipped_foldl_markSkipped {τ α : Type} [LinearOrder α] (ch : String)
    (d : Int) (hd : 0 < d) :
    ∀ (l : List (WithScore τ α)) (st : RedisStore τ α) (id : String),
      ((l.foldl (fun s ws => s.markSkipped ch ws.item.id d) st).isSkipped ch id = true
        ↔ (st.isSkipped ch id = true ∨ id ∈ l.map (fun ws => ws.item.id))) := by
  intro l
  induction l with
  | nil => simp
  | cons w rest ih =>
    intro st id
    simp only [List.foldl_cons, List.map_cons, List.mem_cons]
    rw [ih, isSkipped_markSkipped st ch w.item.id id d hd]
    tauto

theorem filterByNodes_sublist {τ α : Type} [LinearOrder α]
    (items : List (WithScore τ α)) (nodes : List String) :
    (filterByNodes items nodes).Sublist items := by
  unfold filterByNodes
  split
  · exact List.Sublist.refl items
  · exact List.filter_sublist items

theorem filterHNTypes_sublist {τ α : Type} [LinearOrder α]
    (items : List (WithScore τ α)) (nodes : List String) :
    (filterHNTypes items nodes).Sublist items := by
  unfold filterHNTypes
  split
  · exact List.Sublist.refl items
  · dsimp only
    split
    · exact List.Sublist.refl items
    · exact List.filter_sublist items

theorem survivors_sublist {τ α : Type} [LinearOrder α] [Zero α]
    (cfg : NewsletterBuilder) (st : RedisStore τ α)
    (items : List (WithScore τ α)) : (survivors cfg st items).Sublist items := by
  unfold survivors
  refine (List.filter_sublist _).trans ((List.filter_sublist _).trans ?_)
  split
  · exact filterHNTypes_sublist items cfg.nodes
  · exact filterByNodes_sublist items cfg.nodes

/-! ## C4: a render failure does not stop the tick -/

/-- C4 (amended): rendering is not a hard gate.  When template
execution fails, `renderMarkdown` logs and returns the empty string,
and a tick whose other gates pass still writes the (empty) output file
and still calls `mark_published` — the later steps are not skipped. -/
theorem c4_render_failure_continues {τ α : Type} [LinearOrder α] [Zero α]
    (env : BuilderEnv τ) (cfg : NewsletterBuilder) (st : RedisStore τ α)
    (fetched : List (WithScore τ α)) (err : String)
    (h1 : st.isPublished cfg.channel (periodKey cfg.frequency env.now.date) = false)
    (h2 : st.topNews cfg.source (periodKey cfg.frequency env.now.date)
            (fetchCount cfg.topN) = .ok fetched)
    (h3 : cfg.minItems ≤ ((survivors cfg st fetched).length : ℤ))
    (h4 : ∀ p c, env.writeOk p c = true)
    (h5 : env.render (renderData env cfg st (survivors cfg st fetched)) = .error err) :
    BuilderEffect.writeFile
        (cfg.outputDir ++ "/" ++ cfg.channel ++ "/" ++ builderFilename cfg env.now) ""
      ∈ (runOnce env cfg st).2
    ∧ BuilderEffect.markPublished cfg.channel (periodKey cfg.frequency env.now.date)
      ∈ (runOnce env cfg st).2 := by
  have hmd : renderMarkdown env cfg st (survivors cfg st fetched) = "" := by
    unfold renderMarkdown
    rw [h5]
  rw [runOnce_success_eq env cfg st fetched h1 h2 h3 h4, hmd]
  constructor
  · exact List.mem_cons_self _ _
  · exact List.mem_cons_of_mem _ (List.mem_cons_self _ _)

/-- `fxEnv` with a failing template renderer. -/
def fxEnvBad : BuilderEnv Int :=
  { fxEnv with render := fun _ => .error "template execution failed" }

/-- C4 counterexample: with a failing renderer and all other gates
passing, the tick still runs to completion — it writes the output file
(with empty content), marks the period published, and marks the two
rendered items skipped, contradicting the claim that a render failure
stops the tick before any of those steps. -/
theorem c4_render_failure_counterexample :
    fxEnvBad.render (renderData fxEnvBad fxCfg fxStore (survivors fxCfg fxStore fxFetched))
        = .error "template execution failed"
    ∧ runOnce fxEnvBad fxCfg fxStore
      = ({ fxStore with
            published := [("ch", "2026-10-11")],
            skipped := [("ch", "c"), ("ch", "a")] },
         [BuilderEffect.writeFile "out/ch/daily-20261011.md" "",
          BuilderEffect.markPublished "ch" "2026-10-11",
          BuilderEffect.markSkipped "ch" "a" 3600,
          BuilderEffect.markSkipped "ch" "c" 3600]) :=
  ⟨rfl, by decide⟩

/-- C4 witness: the amended statement applied at the concrete failing
renderer. -/
theorem c4_render_failure_continues_witness :
    BuilderEffect.writeFile
        (fxCfg.outputDir ++ "/" ++ fxCfg.channel ++ "/" ++ builderFilename fxCfg fxEnvBad.now) ""
      ∈ (runOnce fxEnvBad fxCfg fxStore).2
    ∧ BuilderEffect.markPublished fxCfg.channel
        (periodKey fxCfg.frequency fxEnvBad.now.date)
      ∈ (runOnce fxEnvBad fxCfg fxStore).2 :=
  c4_render_failure_continues fxEnvBad fxCfg fxStore fxFetched "template execution failed"
    (by decide) (by decide) (by decide) (fun p c => rfl) rfl

/-! ## C8: rendered set = skipped set = first top-N survivors -/

/-- C8: on a successful tick, the rendered digest's item list is
exactly the first `min(candidate count, topN)` surviving candidates in
score-descending order (witnessed here through their URLs), and the
tick's `mark_skipped` calls — and the resulting skip markers — cover
exactly that same set of items, never items filtered out earlier and
never survivors beyond top-N. -/
theorem c8_rendered_equals_skipped {τ α : Type} [LinearOrder α] [Zero α]
    (env : BuilderEnv τ) (cfg : NewsletterBuilder) (st : RedisStore τ α)
    (fetched : List (WithScore τ α))
    (hwf : StoreWF st)
    (h1 : st.isPublished cfg.channel (periodKey cfg.frequency env.now.date) = false)
    (h2 : st.topNews cfg.source (periodKey cfg.frequency env.now.date)
            (fetchCount cfg.topN) = .ok fetched)
    (h3 : cfg.minItems ≤ ((survivors cfg st fetched).length : ℤ))
    (h4 : ∀ p c, env.writeOk p c = true)
    (hd : 0 < cfg.skipDuration) :
    ((renderData env cfg st (survivors cfg st fetched)).items.map (fun it => it.url)
        = ((survivors cfg st fetched).take cfg.topN.toNat).map (fun ws => ws.item.url))
    ∧ (((survivors cfg st fetched).take cfg.topN.toNat).map
        (fun ws => ws.score)).Pairwise (fun a b => b ≤ a)
    ∧ skippedIds (runOnce env cfg st).2
        = ((survivors cfg st fetched).take cfg.topN.toNat).map (fun ws => ws.item.id)
    ∧ ∀ id, ((runOnce env cfg st).1.isSkipped cfg.channel id = true
        ↔ (st.isSkipped cfg.channel id = true
            ∨ id ∈ ((survivors cfg st fetched).take cfg.topN.toNat).map
                (fun ws => ws.item.id))) := by
  have hrun := runOnce_success_eq env cfg st fetched h1 h2 h3 h4
  refine ⟨?_, ?_, ?_, ?_⟩
  · simp only [renderData]
    rw [take_int_min, List.map_map]
    rfl
  · have hsorted := topNews_ok_scores_sorted hwf h2
    have hsub : (((survivors cfg st fetched).take cfg.topN.toNat).map
        (fun ws => ws.score)).Sublist (fetched.map (fun ws => ws.score)) :=
      ((List.take_sublist _ _).trans (survivors_sublist cfg st fetched)).map _
    exact hsorted.sublist hsub
  · rw [hrun]
    simp only [skippedIds, List.filterMap_cons, List.filterMap_append, List.filterMap_map]
    have hcomp : ((fun e => match e with
        | BuilderEffect.markSkipped _ id _ => some id
        | _ => none)
          ∘ (fun ws : WithScore τ α =>
              BuilderEffect.markSkipped cfg.channel ws.item.id cfg.skipDuration))
        = some ∘ (fun ws : WithScore τ α => ws.item.id) := rfl
    rw [hcomp, List.filterMap_eq_map]
    cases hq : cfg.quailyEnabled <;> simp
  · intro id
    rw [hrun]
    dsimp only
    rw [isSkipped_foldl_markSkipped cfg.channel cfg.skipDuration hd,
      isSkipped_markPublished]

/-- C8 witness: at the concrete fixture tick (survivors `a`, `c`; top-N
2) the skip-marked ids equal the rendered ids. -/
theorem c8_rendered_equals_skipped_witness :
    StoreWF fxStore ∧ 0 < fxCfg.skipDuration
    ∧ skippedIds (runOnce fxEnv fxCfg fxStore).2
        = ((survivors fxCfg fxStore fxFetched).take fxCfg.topN.toNat).map
            (fun ws => ws.item.id) :=
  ⟨by decide, by decide,
   (c8_rendered_equals_skipped fxEnv fxCfg fxStore fxFetched (by decide) (by decide)
      (by decide) (by decide) (fun p c => rfl) (by decide)).2.2.1⟩
